import Mathlib

/-!
Shallow embedding of the AdMetric Pro core pipeline
(src/csv_reader.py, src/metrics.py, src/excel_formatter.py, src/main.py).

Real numbers of the Python source (floats) are modelled as exact
rationals; machine integers as ℤ.  Python `round(x, 2)` is modelled as
round-half-to-even at two decimals, which is what the float primitive
computes on exactly representable values.
-/

/-- Round half to even to the nearest integer: the tie-breaking rule of
Python's built-in `round`. -/
def rhe (q : ℚ) : ℤ :=
  if q - ⌊q⌋ < 1/2 then ⌊q⌋
  else if 1/2 < q - ⌊q⌋ then ⌊q⌋ + 1
  else if ⌊q⌋ % 2 = 0 then ⌊q⌋ else ⌊q⌋ + 1

/-- Model of Python `round(x, 2)`: round half to even at two decimal places. -/
def round2 (q : ℚ) : ℚ := (rhe (q * 100) : ℚ) / 100

/-- metrics.calculate_ctr (src/metrics.py lines 41-46):
`if impressions <= 0: return 0.0` else `round((clicks / impressions) * 100, 2)`. -/
def calculate_ctr (clicks impressions : ℤ) : ℚ :=
  if impressions ≤ 0 then 0
  else round2 ((clicks : ℚ) / (impressions : ℚ) * 100)

/-- metrics.calculate_cpc (src/metrics.py lines 74-79):
`if clicks <= 0: return 0.0` else `round(spend / clicks, 2)`. -/
def calculate_cpc (spend : ℚ) (clicks : ℤ) : ℚ :=
  if clicks ≤ 0 then 0
  else round2 (spend / (clicks : ℚ))

/-- One record of the Campaign Table after ingestion
(columns of the DataFrame returned by csv_reader.read_meta_csv). -/
structure CampaignRow where
  campaign_name : String
  amount_spent : ℚ
  link_clicks : ℤ
  impressions : ℤ
  deriving DecidableEq, Repr

/-- One record after metrics.add_metrics_to_dataframe: the original
fields plus the appended `ctr` and `cpc` columns. -/
structure MetricsRow extends CampaignRow where
  ctr : ℚ
  cpc : ℚ
  deriving DecidableEq, Repr

/-- metrics.add_metrics_to_dataframe row computation (src/metrics.py
lines 122-135): the function works on `df.copy()` and appends the two
metric columns row by row, so it is modelled as a pure map producing a
new table; each output row extends the corresponding input row. -/
def add_metrics_to_dataframe (df : List CampaignRow) : List MetricsRow :=
  df.map (fun r =>
    { toCampaignRow := r,
      ctr := calculate_ctr r.link_clicks r.impressions,
      cpc := calculate_cpc r.amount_spent r.link_clicks })

/-- excel_formatter.CPC_THRESHOLD (src/excel_formatter.py line 42). -/
def CPC_THRESHOLD : ℚ := 20

/-- excel_formatter.apply_conditional_formatting (src/excel_formatter.py
lines 158-162): for each data row, the row's cells get the light-red
fill exactly when `cpc_value > threshold`.  The result records, per
record of `df` in order, whether its row was filled. -/
def apply_conditional_formatting (df : List MetricsRow) (threshold : ℚ) : List Bool :=
  df.map (fun r => decide (r.cpc > threshold))

/-- excel_formatter.generate_report highlighting step (src/excel_formatter.py
line 358): `apply_conditional_formatting(details_ws, "cpc", internal_df)` is
called with no `threshold` argument, so Python uses the default value that
was bound when the function was defined, namely the constant 20.00
(line 135 with line 42).  Later reassignment of the module attribute
`excel_formatter.CPC_THRESHOLD` does not change an already-bound default. -/
def generate_report_highlights (df : List MetricsRow) : List Bool :=
  apply_conditional_formatting df CPC_THRESHOLD

/-- main.main step 3 (src/main.py lines 138-144): when a custom
`--cpc-threshold` is given, main rebinds the module attribute
`excel_formatter.CPC_THRESHOLD := args.cpc_threshold` and then calls
`generate_report(df_with_metrics, args.output)`.  Since
`apply_conditional_formatting`'s default parameter was evaluated at
function-definition time and `generate_report` never passes a threshold,
the rebinding has no effect: the rows highlighted by an invocation do not
depend on `cpc_threshold`. -/
def main_report_highlights (df : List MetricsRow) (cpc_threshold : ℚ) : List Bool :=
  generate_report_highlights df

/-- csv_reader.REQUIRED_COLUMNS (src/csv_reader.py lines 16-21). -/
def REQUIRED_COLUMNS : List String :=
  ["Campaign Name", "Amount Spent (ZAR)", "Link Clicks", "Impressions"]

/-- csv_reader.read_meta_csv missing-column computation (src/csv_reader.py
line 83): `[col for col in REQUIRED_COLUMNS if col not in df.columns]`. -/
def missingCsvColumns (header : List String) : List String :=
  REQUIRED_COLUMNS.filter (fun c => !(header.contains c))

/-- csv_reader.read_meta_csv required-column check (src/csv_reader.py
lines 83-88): raises `ValueError` with the message built by joining the
whole missing-column list. -/
def read_meta_csv_validate (header : List String) : Except String Unit :=
  let missing := missingCsvColumns header
  if missing.isEmpty then Except.ok ()
  else Except.error ("Missing required columns in CSV: " ++ String.intercalate ", " missing)

/-- metrics.add_metrics_to_dataframe required columns (src/metrics.py line 114). -/
def metricsRequiredColumns : List String :=
  ["amount_spent", "link_clicks", "impressions"]

/-- metrics.add_metrics_to_dataframe missing-column computation
(src/metrics.py line 115). -/
def missingMetricsColumns (cols : List String) : List String :=
  metricsRequiredColumns.filter (fun c => !(cols.contains c))

/-- metrics.add_metrics_to_dataframe required-column check (src/metrics.py
lines 114-118): raises `KeyError` with the message built by joining the
whole missing-column list. -/
def add_metrics_validate (cols : List String) : Except String Unit :=
  let missing := missingMetricsColumns cols
  if missing.isEmpty then Except.ok ()
  else Except.error ("Missing required columns: " ++ String.intercalate ", " missing)

/-- Value of a decimal digit character. -/
def digitVal (c : Char) : ℕ := c.toNat - 48

/-- Value of a string of decimal digit characters. -/
def digitsVal (cs : List Char) : ℕ :=
  cs.foldl (fun a c => 10 * a + digitVal c) 0

/-- Parse an unsigned decimal literal `digits[.digits]` with at least one
digit.  Part of the model of the external pandas primitive
`pd.to_numeric(·, errors="coerce")` used at src/csv_reader.py lines 97-99;
pandas accepts further forms (exponents, whitespace), but the claims only
distinguish cells that parse from cells that do not. -/
def parseUnsigned (cs : List Char) : Option ℚ :=
  let intPart := cs.takeWhile (fun c => c.isDigit)
  let rest := cs.dropWhile (fun c => c.isDigit)
  match rest with
  | [] => if intPart.isEmpty then none else some ((digitsVal intPart : ℚ))
  | c :: fracRest =>
    if c = '.' then
      let fracPart := fracRest.takeWhile (fun ch => ch.isDigit)
      let rest2 := fracRest.dropWhile (fun ch => ch.isDigit)
      if rest2.isEmpty ∧ (¬ intPart.isEmpty ∨ ¬ fracPart.isEmpty) then
        some (Rat.divInt
          (digitsVal intPart * 10 ^ fracPart.length + digitsVal fracPart)
          (10 ^ fracPart.length))
      else none
    else none

/-- Model of `pd.to_numeric(cell, errors="coerce")` on one cell: `none`
stands for the NaN produced on an unparsable value. -/
def parseDecimal (s : String) : Option ℚ :=
  match s.data with
  | [] => none
  | '-' :: rest => (parseUnsigned rest).map (fun q => -q)
  | '+' :: rest => parseUnsigned rest
  | cs => parseUnsigned cs

/-- Truncation toward zero: model of the numpy float→int cast performed by
`.astype(int)` at src/csv_reader.py lines 98-99. -/
def truncToward0 (q : ℚ) : ℤ := if 0 ≤ q then ⌊q⌋ else -⌊-q⌋

/-- One raw CSV record after the required columns have been located and
renamed (src/csv_reader.py lines 91-92): every cell still text. -/
structure RawRow where
  campaign_name : String
  amount_spent : String
  link_clicks : String
  impressions : String
  deriving DecidableEq, Repr

/-- csv_reader.read_meta_csv type-coercion step (src/csv_reader.py lines
96-99): `campaign_name` goes through `astype(str)` (identity on text read
with `dtype=str`); `amount_spent` through `to_numeric(errors="coerce").fillna(0.0)`;
`link_clicks` and `impressions` additionally through `.astype(int)`.
A total function: the step never raises. -/
def coerce_row (r : RawRow) : CampaignRow :=
  { campaign_name := r.campaign_name,
    amount_spent := (parseDecimal r.amount_spent).getD 0,
    link_clicks := truncToward0 ((parseDecimal r.link_clicks).getD 0),
    impressions := truncToward0 ((parseDecimal r.impressions).getD 0) }

/-- excel_formatter.create_executive_summary total spend
(src/excel_formatter.py line 194). -/
def total_spend (df : List MetricsRow) : ℚ :=
  (df.map (fun r => r.amount_spent)).sum

/-- excel_formatter.create_executive_summary total impressions
(src/excel_formatter.py line 195). -/
def total_impressions (df : List MetricsRow) : ℤ :=
  (df.map (fun r => r.impressions)).sum

/-- excel_formatter.create_executive_summary total clicks
(src/excel_formatter.py line 196). -/
def total_clicks (df : List MetricsRow) : ℤ :=
  (df.map (fun r => r.link_clicks)).sum

/-- excel_formatter.create_executive_summary average CPC
(src/excel_formatter.py line 199):
`total_spend / total_clicks if total_clicks > 0 else 0`. -/
def avg_cpc (df : List MetricsRow) : ℚ :=
  if 0 < total_clicks df then total_spend df / (total_clicks df : ℚ) else 0

/-- excel_formatter.create_executive_summary overall CTR
(src/excel_formatter.py line 200):
`(total_clicks / total_impressions) * 100 if total_impressions > 0 else 0`. -/
def overall_ctr (df : List MetricsRow) : ℚ :=
  if 0 < total_impressions df then
    ((total_clicks df : ℚ) / (total_impressions df : ℚ)) * 100
  else 0

example : calculate_ctr 50 2500 = 2 := by norm_num [calculate_ctr, round2, rhe]
example : calculate_cpc 1000 50 = 20 := by norm_num [calculate_cpc, round2, rhe]
example : calculate_ctr 100 0 = 0 := by norm_num [calculate_ctr]
example : calculate_ctr (-5) 100 = -5 := by norm_num [calculate_ctr, round2, rhe]
example : parseDecimal "5.7" = some (Rat.divInt 57 10) := by decide
example : parseDecimal "invalid" = none := by decide
example : parseDecimal "-5.7" = some (-Rat.divInt 57 10) := by decide
example : parseDecimal "120" = some 120 := by decide
example : truncToward0 (57/10) = 5 := by norm_num [truncToward0]
example : truncToward0 (-(57/10)) = -5 := by norm_num [truncToward0, neg_neg]

lemma rhe_nonneg (q : ℚ) (hq : 0 ≤ q) : 0 ≤ rhe q := by
  have h0 : (0 : ℤ) ≤ ⌊q⌋ := Int.floor_nonneg.2 hq
  unfold rhe
  split_ifs <;> omega

lemma round2_nonneg (q : ℚ) (hq : 0 ≤ q) : 0 ≤ round2 q := by
  have h : (0 : ℤ) ≤ rhe (q * 100) := rhe_nonneg _ (by positivity)
  unfold round2
  have h2 : (0 : ℚ) ≤ (rhe (q * 100) : ℚ) := by exact_mod_cast h
  positivity

/-- C2 counterexample: with negative clicks and positive impressions the
guard at src/metrics.py line 41 does not fire and the CTR comes out
negative; likewise negative spend with positive clicks yields a negative
CPC. -/
theorem ctr_cpc_negative_counterexample :
    calculate_ctr (-5) 100 = -5 ∧ calculate_cpc (-10) 5 = -2 := by
  constructor <;> norm_num [calculate_ctr, calculate_cpc, round2, rhe]

/-- C2 (amended): calculate_ctr is nonnegative whenever clicks is
nonnegative (for every value of impressions), and calculate_cpc is
nonnegative whenever spend is nonnegative (for every value of clicks). -/
theorem calculate_ctr_cpc_nonneg (clicks impressions : ℤ) (spend : ℚ)
    (hclicks : 0 ≤ clicks) (hspend : 0 ≤ spend) :
    0 ≤ calculate_ctr clicks impressions ∧ 0 ≤ calculate_cpc spend clicks := by
  constructor
  · unfold calculate_ctr
    split_ifs with h
    · exact le_refl 0
    · push_neg at h
      apply round2_nonneg
      have h1 : (0 : ℚ) < (impressions : ℚ) := by exact_mod_cast h
      have h2 : (0 : ℚ) ≤ (clicks : ℚ) := by exact_mod_cast hclicks
      positivity
  · unfold calculate_cpc
    split_ifs with h
    · exact le_refl 0
    · push_neg at h
      apply round2_nonneg
      have h1 : (0 : ℚ) < (clicks : ℚ) := by exact_mod_cast h
      positivity

/-- Witness for the amended C2 at clicks 50, impressions 2500, spend 1000. -/
theorem calculate_ctr_cpc_nonneg_witness :
    (0 : ℤ) ≤ 50 ∧ (0 : ℚ) ≤ 1000 ∧
    0 ≤ calculate_ctr 50 2500 ∧ 0 ≤ calculate_cpc 1000 50 :=
  ⟨by norm_num, by norm_num,
   (calculate_ctr_cpc_nonneg 50 2500 1000 (by norm_num) (by norm_num)).1,
   (calculate_ctr_cpc_nonneg 50 2500 1000 (by norm_num) (by norm_num)).2⟩

/-- C4: calculate_ctr returns 0 when impressions is not strictly positive
and otherwise rounds (clicks / impressions) * 100 to two decimals. -/
theorem calculate_ctr_spec (clicks impressions : ℤ) :
    (impressions ≤ 0 → calculate_ctr clicks impressions = 0) ∧
    (0 < impressions → calculate_ctr clicks impressions =
      round2 ((clicks : ℚ) / (impressions : ℚ) * 100)) := by
  constructor
  · intro h
    unfold calculate_ctr
    rw [if_pos h]
  · intro h
    unfold calculate_ctr
    rw [if_neg (not_le.2 h)]

/-- Witness for C4 at (100, 0) and (50, 2500). -/
theorem calculate_ctr_spec_witness :
    calculate_ctr 100 0 = 0 ∧
    calculate_ctr 50 2500 = round2 ((50 : ℚ) / (2500 : ℚ) * 100) :=
  ⟨(calculate_ctr_spec 100 0).1 (by norm_num),
   (calculate_ctr_spec 50 2500).2 (by norm_num)⟩

/-- C5: calculate_cpc returns 0 when clicks is not strictly positive and
otherwise rounds spend / clicks to two decimals. -/
theorem calculate_cpc_spec (spend : ℚ) (clicks : ℤ) :
    (clicks ≤ 0 → calculate_cpc spend clicks = 0) ∧
    (0 < clicks → calculate_cpc spend clicks = round2 (spend / (clicks : ℚ))) := by
  constructor
  · intro h
    unfold calculate_cpc
    rw [if_pos h]
  · intro h
    unfold calculate_cpc
    rw [if_neg (not_le.2 h)]

/-- Witness for C5 at (500, 0) and (1000, 50). -/
theorem calculate_cpc_spec_witness :
    calculate_cpc 500 0 = 0 ∧
    calculate_cpc 1000 50 = round2 ((1000 : ℚ) / (50 : ℚ)) :=
  ⟨(calculate_cpc_spec 500 0).1 (by norm_num),
   (calculate_cpc_spec 1000 50).2 (by norm_num)⟩

/-- C3: the conditional-formatting comparison is strict: at any index, the
row is highlighted exactly when its cpc strictly exceeds the threshold, so
a cpc equal to the threshold is never highlighted and a cpc equal to
threshold + 0.01 always is. -/
theorem apply_conditional_formatting_strict (df : List MetricsRow) (t : ℚ)
    (i : ℕ) (h : i < df.length) :
    ((df.get ⟨i, h⟩).cpc = t →
      (apply_conditional_formatting df t)[i]? = some false) ∧
    ((df.get ⟨i, h⟩).cpc = t + 1/100 →
      (apply_conditional_formatting df t)[i]? = some true) ∧
    ((apply_conditional_formatting df t)[i]? = some true ↔ t < (df.get ⟨i, h⟩).cpc) := by
  have hmap : (apply_conditional_formatting df t)[i]? =
      some (decide (t < (df.get ⟨i, h⟩).cpc)) := by
    simp [apply_conditional_formatting, List.getElem?_eq_getElem h]
  refine ⟨?_, ?_, ?_⟩
  · intro hcpc
    rw [hmap, hcpc]
    simp
  · intro hcpc
    rw [hmap, hcpc]
    have ht : t < t + 1/100 := by linarith
    simp [ht]
  · rw [hmap]
    simp

/-- Two-row table exercising the highlighting boundary. -/
def boundaryDf : List MetricsRow :=
  [{ campaign_name := "Exactly at threshold", amount_spent := 0, link_clicks := 0,
     impressions := 0, ctr := 0, cpc := 20 },
   { campaign_name := "One cent above", amount_spent := 0, link_clicks := 0,
     impressions := 0, ctr := 0, cpc := 20 + 1/100 }]

/-- Witness for C3 at threshold 20 with cpc 20.00 and cpc 20.01. -/
theorem apply_conditional_formatting_strict_witness :
    (apply_conditional_formatting boundaryDf 20)[0]? = some false ∧
    (apply_conditional_formatting boundaryDf 20)[1]? = some true :=
  ⟨(apply_conditional_formatting_strict boundaryDf 20 0 (by decide)).1 rfl,
   (apply_conditional_formatting_strict boundaryDf 20 1 (by decide)).2.1 rfl⟩

/-- C6: augmenting a table preserves the row count, leaves every original
field of every row unchanged, and appends exactly the computed ctr and cpc;
the source rows appear unmodified inside the result. -/
theorem add_metrics_to_dataframe_frame (df : List CampaignRow) (i : ℕ) (h : i < df.length) :
    (add_metrics_to_dataframe df).length = df.length ∧
    ((add_metrics_to_dataframe df).get
      ⟨i, by simpa [add_metrics_to_dataframe] using h⟩).toCampaignRow = df.get ⟨i, h⟩ ∧
    ((add_metrics_to_dataframe df).get
      ⟨i, by simpa [add_metrics_to_dataframe] using h⟩).ctr =
        calculate_ctr (df.get ⟨i, h⟩).link_clicks (df.get ⟨i, h⟩).impressions ∧
    ((add_metrics_to_dataframe df).get
      ⟨i, by simpa [add_metrics_to_dataframe] using h⟩).cpc =
        calculate_cpc (df.get ⟨i, h⟩).amount_spent (df.get ⟨i, h⟩).link_clicks := by
  refine ⟨by simp [add_metrics_to_dataframe], ?_, ?_, ?_⟩ <;>
    simp [add_metrics_to_dataframe]

/-- One-row table for the C6 witness. -/
def summerDf : List CampaignRow :=
  [{ campaign_name := "Summer Sale", amount_spent := 1000, link_clicks := 50,
     impressions := 2500 }]

/-- Witness for C6 on a concrete one-row table. -/
theorem add_metrics_to_dataframe_frame_witness :
    (add_metrics_to_dataframe summerDf).length = summerDf.length ∧
    ((add_metrics_to_dataframe summerDf).get
      ⟨0, by simpa [add_metrics_to_dataframe] using (by decide : 0 < summerDf.length)⟩).toCampaignRow =
      summerDf.get ⟨0, by decide⟩ :=
  ⟨(add_metrics_to_dataframe_frame summerDf 0 (by decide)).1,
   (add_metrics_to_dataframe_frame summerDf 0 (by decide)).2.1⟩

/-- C7: both required-column checks fail with an error whose message is
built from the complete list of missing columns, and that list holds
exactly the required columns absent from the header/column set. -/
theorem missing_columns_enumerated (header cols : List String) :
    (missingCsvColumns header ≠ [] →
      read_meta_csv_validate header = Except.error
        ("Missing required columns in CSV: " ++
          String.intercalate ", " (missingCsvColumns header))) ∧
    (∀ c, c ∈ missingCsvColumns header ↔ (c ∈ REQUIRED_COLUMNS ∧ c ∉ header)) ∧
    (missingMetricsColumns cols ≠ [] →
      add_metrics_validate cols = Except.error
        ("Missing required columns: " ++
          String.intercalate ", " (missingMetricsColumns cols))) ∧
    (∀ c, c ∈ missingMetricsColumns cols ↔ (c ∈ metricsRequiredColumns ∧ c ∉ cols)) := by
  refine ⟨?_, ?_, ?_, ?_⟩
  · intro hne
    unfold read_meta_csv_validate
    rw [if_neg]
    simpa using hne
  · intro c
    simp [missingCsvColumns]
  · intro hne
    unfold add_metrics_validate
    rw [if_neg]
    simpa using hne
  · intro c
    simp [missingMetricsColumns]

/-- Witness for C7: a header with only the name column, and a metrics table
missing impressions; three, resp. one, columns are reported, all of them. -/
theorem missing_columns_enumerated_witness :
    missingCsvColumns ["Campaign Name"] ≠ [] ∧
    read_meta_csv_validate ["Campaign Name"] = Except.error
      ("Missing required columns in CSV: " ++
        String.intercalate ", " (missingCsvColumns ["Campaign Name"])) ∧
    missingMetricsColumns ["amount_spent", "link_clicks"] ≠ [] ∧
    add_metrics_validate ["amount_spent", "link_clicks"] = Except.error
      ("Missing required columns: " ++
        String.intercalate ", " (missingMetricsColumns ["amount_spent", "link_clicks"])) :=
  ⟨by decide,
   (missing_columns_enumerated ["Campaign Name"] []).1 (by decide),
   by decide,
   (missing_columns_enumerated [] ["amount_spent", "link_clicks"]).2.2.1 (by decide)⟩

/-- C8: the type-coercion step keeps the name field verbatim and replaces
every unparsable numeric cell by the zero default; it is a total function,
so it never fails. -/
theorem coerce_row_defaults (r : RawRow) :
    (coerce_row r).campaign_name = r.campaign_name ∧
    (parseDecimal r.amount_spent = none → (coerce_row r).amount_spent = 0) ∧
    (parseDecimal r.link_clicks = none → (coerce_row r).link_clicks = 0) ∧
    (parseDecimal r.impressions = none → (coerce_row r).impressions = 0) := by
  refine ⟨rfl, ?_, ?_, ?_⟩ <;> intro h <;> simp [coerce_row, h, truncToward0]

/-- Witness for C8 on the repository's own bad-cell example row
("Test Campaign", "invalid", "N/A", "abc"). -/
theorem coerce_row_defaults_witness :
    parseDecimal "invalid" = none ∧ parseDecimal "N/A" = none ∧
    parseDecimal "abc" = none ∧
    (coerce_row ⟨"Test Campaign", "invalid", "N/A", "abc"⟩).campaign_name = "Test Campaign" ∧
    (coerce_row ⟨"Test Campaign", "invalid", "N/A", "abc"⟩).amount_spent = 0 ∧
    (coerce_row ⟨"Test Campaign", "invalid", "N/A", "abc"⟩).link_clicks = 0 ∧
    (coerce_row ⟨"Test Campaign", "invalid", "N/A", "abc"⟩).impressions = 0 :=
  ⟨by decide, by decide, by decide,
   (coerce_row_defaults ⟨"Test Campaign", "invalid", "N/A", "abc"⟩).1,
   (coerce_row_defaults ⟨"Test Campaign", "invalid", "N/A", "abc"⟩).2.1 (by decide),
   (coerce_row_defaults ⟨"Test Campaign", "invalid", "N/A", "abc"⟩).2.2.1 (by decide),
   (coerce_row_defaults ⟨"Test Campaign", "invalid", "N/A", "abc"⟩).2.2.2 (by decide)⟩

/-- C10: a clicks or impressions cell that parses to a non-integral number
is stored truncated toward zero, and the zero default is applied only to
cells that do not parse at all. -/
theorem coerce_row_truncates (r : RawRow) (q : ℚ) :
    (parseDecimal r.link_clicks = some q → (coerce_row r).link_clicks = truncToward0 q) ∧
    (parseDecimal r.impressions = some q → (coerce_row r).impressions = truncToward0 q) ∧
    (parseDecimal r.link_clicks = none → (coerce_row r).link_clicks = 0) ∧
    (parseDecimal r.impressions = none → (coerce_row r).impressions = 0) := by
  refine ⟨?_, ?_, ?_, ?_⟩ <;> intro h <;> simp [coerce_row, h, truncToward0]

/-- Witness for C10: the cell "5.7" parses to 57/10 and is stored as 5,
not as the 0 default; an unparsable cell still becomes 0. -/
theorem coerce_row_truncates_witness :
    parseDecimal "5.7" = some (Rat.divInt 57 10) ∧
    truncToward0 (Rat.divInt 57 10) = 5 ∧
    (coerce_row ⟨"A", "1", "5.7", "5.7"⟩).link_clicks = truncToward0 (Rat.divInt 57 10) ∧
    (coerce_row ⟨"A", "1", "5.7", "5.7"⟩).impressions = truncToward0 (Rat.divInt 57 10) ∧
    (coerce_row ⟨"A", "1", "x", "x"⟩).link_clicks = 0 ∧
    (coerce_row ⟨"A", "1", "x", "x"⟩).impressions = 0 :=
  ⟨by decide,
   by rw [Rat.divInt_eq_div]; norm_num [truncToward0],
   (coerce_row_truncates ⟨"A", "1", "5.7", "5.7"⟩ (Rat.divInt 57 10)).1 (by decide),
   (coerce_row_truncates ⟨"A", "1", "5.7", "5.7"⟩ (Rat.divInt 57 10)).2.1 (by decide),
   (coerce_row_truncates ⟨"A", "1", "x", "x"⟩ 0).2.2.1 (by decide),
   (coerce_row_truncates ⟨"A", "1", "x", "x"⟩ 0).2.2.2 (by decide)⟩

/-- One-row table whose total clicks is negative: reachable, since a CSV
cell "-5" parses to -5 in ingestion. -/
def negClicksDf : List MetricsRow :=
  [{ campaign_name := "Neg", amount_spent := 10, link_clicks := -5,
     impressions := 100, ctr := calculate_ctr (-5) 100, cpc := calculate_cpc 10 (-5) }]

/-- C9 counterexample: on a table with total clicks -5 the code's average
CPC is the guard value 0, while total spend divided by total clicks is -2;
the claim's "0 only if total clicks is 0" formula demands -2 here. -/
theorem summary_aggregates_counterexample :
    total_clicks negClicksDf = -5 ∧
    avg_cpc negClicksDf = 0 ∧
    total_spend negClicksDf / (total_clicks negClicksDf : ℚ) = -2 := by
  refine ⟨by decide, ?_, ?_⟩
  · norm_num [avg_cpc, total_clicks, negClicksDf]
  · norm_num [total_spend, total_clicks, negClicksDf]

/-- C9 (amended): the summary totals are the exact sums, and the average
CPC and overall CTR equal the ratio formulas whenever the respective total
is strictly positive, with 0 returned whenever it is not (not only at 0). -/
theorem summary_aggregates (df : List MetricsRow) :
    total_spend df = (df.map (fun r => r.amount_spent)).sum ∧
    total_impressions df = (df.map (fun r => r.impressions)).sum ∧
    total_clicks df = (df.map (fun r => r.link_clicks)).sum ∧
    (0 < total_clicks df → avg_cpc df = total_spend df / (total_clicks df : ℚ)) ∧
    (total_clicks df ≤ 0 → avg_cpc df = 0) ∧
    (0 < total_impressions df →
      overall_ctr df = ((total_clicks df : ℚ) / (total_impressions df : ℚ)) * 100) ∧
    (total_impressions df ≤ 0 → overall_ctr df = 0) := by
  refine ⟨rfl, rfl, rfl, ?_, ?_, ?_, ?_⟩
  · intro h
    unfold avg_cpc
    rw [if_pos h]
  · intro h
    unfold avg_cpc
    rw [if_neg (not_lt.2 h)]
  · intro h
    unfold overall_ctr
    rw [if_pos h]
  · intro h
    unfold overall_ctr
    rw [if_neg (not_lt.2 h)]

/-- Two-row table from the spec's concrete scenario. -/
def scenarioDf : List MetricsRow :=
  [{ campaign_name := "Summer Sale", amount_spent := 1000, link_clicks := 50,
     impressions := 2500, ctr := 2, cpc := 20 },
   { campaign_name := "Winter Promo", amount_spent := 500, link_clicks := 25,
     impressions := 1250, ctr := 2, cpc := 20 }]

/-- Witness for the amended C9 on the two-row scenario table. -/
theorem summary_aggregates_witness :
    (0 : ℤ) < total_clicks scenarioDf ∧
    avg_cpc scenarioDf = total_spend scenarioDf / (total_clicks scenarioDf : ℚ) ∧
    (0 : ℤ) < total_impressions scenarioDf ∧
    overall_ctr scenarioDf =
      ((total_clicks scenarioDf : ℚ) / (total_impressions scenarioDf : ℚ)) * 100 :=
  ⟨by decide,
   (summary_aggregates scenarioDf).2.2.2.1 (by decide),
   by decide,
   (summary_aggregates scenarioDf).2.2.2.2.2.1 (by decide)⟩

/-- One-row table whose cpc (22) lies between the definition-time default
threshold (20) and a caller-supplied threshold (25). -/
def midCpcDf : List MetricsRow :=
  [{ campaign_name := "Mid", amount_spent := 1100, link_clicks := 50,
     impressions := 2500, ctr := 2, cpc := 22 }]

/-- C1: running the pipeline with the custom threshold 25 still highlights
the row with cpc 22, because the highlighting always uses the constant
default 20 bound at function-definition time; under the claimed behavior
the row must not be highlighted since 22 does not exceed 25. -/
theorem custom_threshold_ignored :
    main_report_highlights midCpcDf 25 = [true] ∧ ¬ ((22 : ℚ) > 25) := by
  constructor
  · norm_num [main_report_highlights, generate_report_highlights,
      apply_conditional_formatting, CPC_THRESHOLD, midCpcDf]
  · norm_num
